import Mathlib

/-!
A shallow embedding of `expense_tracker.py` (a JSON-backed expense tracker)
together with theorems settling the specification claims about it.

Modelling conventions:
* Python strings are Lean `String`s; character-level operations are carried
  out on `String.data` (`List Char`) so that everything evaluates.
* Python floats are modelled as exact rationals (`ℚ`); binary floating-point
  representation error is not modelled.  `round(x, 2)` is modelled as exact
  round-half-to-even at two decimal places.
* JSON values are the inductive `Json`; the expenses file on disk is a
  `FileData` (either well-formed JSON or text that `json.load` rejects).
* The filesystem and clock are a record `FS`; whether `open(..., "w")` or
  `os.rename` succeed is part of that state (`writeOk` / `renameOk`).
* Console interaction (`input()`) is a queue of strings; the number of
  prompts performed is reported alongside each result.
-/

/-! ## Character and string helpers (CPython semantics, ASCII fragment) -/

/-- Whitespace as `str.strip()` and `float()` treat it:
space and the control characters TAB, LF, VT, FF, CR. -/
def isPySpace (c : Char) : Bool :=
  c.val == 32 || (9 ≤ c.val && c.val ≤ 13)

/-- `str.strip()` on the character list: drop whitespace at both ends. -/
def stripChars (l : List Char) : List Char :=
  ((l.dropWhile isPySpace).reverse.dropWhile isPySpace).reverse

/-- `str.strip()`. -/
def pyStrip (s : String) : String :=
  ⟨stripChars s.data⟩

/-- `str.split(sep)` for a one-character separator, keeping empty pieces
(CPython: `"a--b".split("-") == ["a", "", "b"]`, `"".split("-") == [""]`). -/
def splitOnChar (sep : Char) : List Char → List (List Char)
  | [] => [[]]
  | c :: cs =>
    if c = sep then [] :: splitOnChar sep cs
    else
      match splitOnChar sep cs with
      | [] => [[c]]
      | g :: gs => (c :: g) :: gs

/-- All characters are ASCII decimal digits. -/
def allDigits (l : List Char) : Bool :=
  l.all Char.isDigit

/-- Numeric value of a list of decimal digits. -/
def digitsVal (l : List Char) : Nat :=
  l.foldl (fun n c => n * 10 + (c.toNat - 48)) 0

/-- `str.lower()` on one character (ASCII fragment; the program's data is
ASCII and non-ASCII case mapping is outside the model). -/
def lowerChar (c : Char) : Char :=
  if 65 ≤ c.val ∧ c.val ≤ 90 then Char.ofNat (c.toNat + 32) else c

/-- `s.lower()` as a character list. -/
def keyLower (s : String) : List Char :=
  s.data.map lowerChar

/-- Lexicographic `≤` on code-point sequences, as CPython compares `str`. -/
def lexLe : List Char → List Char → Bool
  | [], _ => true
  | _ :: _, [] => false
  | a :: as, b :: bs =>
    if a.val < b.val then true
    else if b.val < a.val then false
    else lexLe as bs

/-! ## Calendar dates (`datetime.date`) -/

/-- A calendar date, as `datetime.date`: year, month, day. -/
structure Date where
  year : Nat
  month : Nat
  day : Nat
deriving DecidableEq, Repr

/-- Gregorian leap year, as `datetime` uses. -/
def isLeapYear (y : Nat) : Bool :=
  (y % 4 == 0 && y % 100 != 0) || y % 400 == 0

/-- Days in a month, as `datetime.date` validates its `day` argument. -/
def daysInMonth (y m : Nat) : Nat :=
  if m = 2 then (if isLeapYear y then 29 else 28)
  else if m = 4 ∨ m = 6 ∨ m = 9 ∨ m = 11 then 30
  else 31

/-- `datetime.date.min`, i.e. `0001-01-01`. -/
def dateMin : Date := ⟨1, 1, 1⟩

/-- `datetime.strptime(s, "%Y-%m-%d").date()`: a 4-digit year, a 1–2 digit
month and a 1–2 digit day separated by `-`, the whole string consumed, and
the triple a valid calendar date (`datetime` requires `1 ≤ year ≤ 9999`;
the 4-digit field already bounds the year above). -/
def parseDate (s : String) : Option Date :=
  match splitOnChar '-' s.data with
  | [ys, ms, ds] =>
    if ys.length = 4 ∧ allDigits ys
        ∧ 1 ≤ ms.length ∧ ms.length ≤ 2 ∧ allDigits ms
        ∧ 1 ≤ ds.length ∧ ds.length ≤ 2 ∧ allDigits ds then
      if 1 ≤ digitsVal ys ∧ 1 ≤ digitsVal ms ∧ digitsVal ms ≤ 12
          ∧ 1 ≤ digitsVal ds
          ∧ digitsVal ds ≤ daysInMonth (digitsVal ys) (digitsVal ms) then
        some ⟨digitsVal ys, digitsVal ms, digitsVal ds⟩
      else none
    else none
  | _ => none

/-- `date` comparison (`datetime.date` orders lexicographically by
year, month, day); Boolean `≤`. -/
def Date.leb (a b : Date) : Bool :=
  decide (a.year < b.year ∨ (a.year = b.year ∧
    (a.month < b.month ∨ (a.month = b.month ∧ a.day ≤ b.day))))

/-- One decimal digit character. -/
def digitChar (n : Nat) : Char := Char.ofNat (48 + n % 10)

/-- Two-digit zero-padded rendering (months and days). -/
def pad2Chars (n : Nat) : List Char := [digitChar (n / 10), digitChar n]

/-- Four-digit zero-padded rendering (years; parsed years are ≤ 9999). -/
def pad4Chars (n : Nat) : List Char :=
  [digitChar (n / 1000), digitChar (n / 100), digitChar (n / 10), digitChar n]

/-- `date.isoformat()`: `YYYY-MM-DD`, zero padded. -/
def dateIso (d : Date) : String :=
  ⟨pad4Chars d.year ++ '-' :: pad2Chars d.month ++ '-' :: pad2Chars d.day⟩

/-! ## Decimal numbers (`float(...)` and `round(x, 2)`) -/

/-- Apply a sign flag. -/
def applySign (neg : Bool) (q : ℚ) : ℚ := if neg then -q else q

/-- The builtin `float(s)` on a string, modelled for finite decimal
literals: optional surrounding whitespace, an optional sign, and digits
with an optional fractional part (`"1."` and `".5"` are accepted, `"."`,
`""` and non-numeric text are rejected).  Exponents, `inf`/`nan`,
underscores and non-ASCII digits are outside the model, and the value is
the exact rational (float representation error is not modelled). -/
def parseDecimal (s : String) : Option ℚ :=
  let cs := stripChars s.data
  let signed : Bool × List Char :=
    match cs with
    | '-' :: rest => (true, rest)
    | '+' :: rest => (false, rest)
    | _ => (false, cs)
  match splitOnChar '.' signed.2 with
  | [ip] =>
    if ip ≠ [] ∧ allDigits ip then
      some (applySign signed.1 (digitsVal ip : ℚ))
    else none
  | [ip, fp] =>
    if (ip ≠ [] ∨ fp ≠ []) ∧ allDigits ip ∧ allDigits fp then
      some (applySign signed.1
        ((digitsVal ip : ℚ) + (digitsVal fp : ℚ) / ((10 : ℚ) ^ fp.length)))
    else none
  | _ => none

/-- Floor of a rational (denominators are positive, so flooring integer
division of numerator by denominator). -/
def floorQ (q : ℚ) : ℤ := q.num.fdiv (q.den : ℤ)

/-- Round to the nearest integer, ties to even — the rounding CPython's
`round` uses. -/
def roundHalfEven (q : ℚ) : ℤ :=
  let f := floorQ q
  let r := q - (f : ℚ)
  if r < 1 / 2 then f
  else if 1 / 2 < r then f + 1
  else if f % 2 = 0 then f else f + 1

/-- `round(x, 2)`, as exact half-even rounding at two decimal places. -/
def round2 (q : ℚ) : ℚ := (roundHalfEven (q * 100) : ℚ) / 100

/-! ## JSON values and stored records -/

/-- A JSON value, as `json.load` produces it (numbers as exact rationals). -/
inductive Json where
  | null
  | bool (b : Bool)
  | num (q : ℚ)
  | str (s : String)
  | arr (xs : List Json)
  | obj (fields : List (String × Json))

/-- First binding of a key in an object's field list (Python dicts have
unique keys, so this is the binding). -/
def lookupField : List (String × Json) → String → Option Json
  | [], _ => none
  | (k', v) :: rest, k => if k' = k then some v else lookupField rest k

/-- Field access on a record.  Every stored record this program writes and
every record a claim exercises is an object; `d[k]` / `d.get(k)` on a
non-dict (which raises in CPython) is outside the model. -/
def getField : Json → String → Option Json
  | .obj fields, k => lookupField fields k
  | _, _ => none

/-- `e.get(key, default)`. -/
def pyGet (e : Json) (k : String) (dflt : Json) : Json :=
  (getField e k).getD dflt

/-- The builtin `float(x)` on a JSON value: numbers are themselves, booleans
are 0/1, strings parse as decimal literals, and `None`/lists/dicts are a
`TypeError` (`none`). -/
def pyFloat : Json → Option ℚ
  | .num q => some q
  | .bool b => some (if b then 1 else 0)
  | .str s => parseDecimal s
  | _ => none

/-! ## Storage adapter (`ensure_expenses_file`, `load_expenses`,
`save_expenses`) -/

/-- Content of a file on disk: either text `json.load` rejects, or a parsed
JSON value. -/
inductive FileData where
  | malformed
  | json (j : Json)

/-- `expenses.json` holds a JSON list (the shape `ensure_expenses_file`
accepts). -/
def FileData.isValidList : FileData → Bool
  | .json (.arr _) => true
  | _ => false

/-- Filesystem and environment state.  `expensesFile` is the content of
`expenses.json` (`none`: the file does not exist); `backups` are files
created by corruption recovery, newest first.  `now` is the current time
rendered as `%Y%m%d_%H%M%S` and `nowIso` as `isoformat()`.  `renameOk` and
`writeOk` say whether `os.rename` and `open(..., "w")`+`json.dump`
succeed; a failed operation raises in CPython. -/
structure FS where
  expensesFile : Option FileData
  backups : List (String × FileData)
  now : String
  nowIso : String
  renameOk : Bool
  writeOk : Bool

/-- `ensure_expenses_file()` (lines 50–73).  `Except.error` is an uncaught
exception propagating to the caller.  The create-if-missing write (line 53)
and the fresh-file write after corruption (line 72) are outside any `try`,
so their failure propagates; the `os.rename` (line 68) is inside a `try`
whose handler only prints, so its failure is reported and the corrupted
file is left in place to be overwritten. -/
def ensureExpensesFile (fs : FS) : Except String FS :=
  match fs.expensesFile with
  | none =>
    if fs.writeOk then .ok { fs with expensesFile := some (.json (.arr [])) }
    else .error "cannot create expenses.json"
  | some fd =>
    if fd.isValidList then .ok fs
    else
      let fs1 :=
        if fs.renameOk then
          { fs with
              expensesFile := none,
              backups :=
                ("expenses_corrupted_backup_" ++ fs.now ++ ".json", fd)
                  :: fs.backups }
        else fs
      if fs.writeOk then .ok { fs1 with expensesFile := some (.json (.arr [])) }
      else .error "cannot create expenses.json"

/-- `load_expenses()` (lines 75–78): ensure the file, then read it back.
After a successful `ensureExpensesFile` the file always holds a JSON list;
the unreachable other cases are a read error. -/
def loadExpenses (fs : FS) : Except String (FS × List Json) :=
  match ensureExpensesFile fs with
  | .error e => .error e
  | .ok fs' =>
    match fs'.expensesFile with
    | some (.json (.arr xs)) => .ok (fs', xs)
    | _ => .error "unreadable expenses.json"

/-- `save_expenses(expenses)` (lines 80–82): overwrite the document. -/
def saveExpenses (fs : FS) (expenses : List Json) : Except String FS :=
  if fs.writeOk then .ok { fs with expensesFile := some (.json (.arr expenses)) }
  else .error "cannot write expenses.json"

/-! ## Entries and `add_expense` -/

/-- The record `add_expense` builds (lines 133–138). -/
structure Entry where
  date : String
  category : String
  amount : ℚ
  description : String
deriving DecidableEq

/-- The JSON object stored for an entry. -/
def Entry.toJson (e : Entry) : Json :=
  .obj [("date", .str e.date), ("category", .str e.category),
        ("amount", .num e.amount), ("description", .str e.description)]

/-- Result of `add_expense`: the entry appended on success (`add_expense`
itself returns `True`/`False`; the entry is the dict built at line 133),
the number of `input()` prompts performed, the remaining console input
queue, and the resulting filesystem. -/
structure AddOutcome where
  result : Option Entry
  promptCount : Nat
  console : List String
  fs : FS

/-- Pop one response from the console input queue (an exhausted queue reads
as the empty string; claims always supply enough input). -/
def popConsole : List String → String × List String
  | [] => ("", [])
  | c :: rest => (c, rest)

/-- `add_expense(date_str, category, amount, description)` (lines 88–149),
instantiated with an explicit console-input queue and today's date.
A missing (`None`) or empty date triggers a prompt, with today's date as
the empty-response default; a missing or empty category triggers a prompt,
then defaults to `"Misc"`; a missing amount triggers a prompt; a missing
description triggers a prompt.  The amount parameter is passed through
`str(...)`, modelled as the string itself.  Failure (`False`) leaves
`result = none`. -/
def addExpense (dateStr category amount description : Option String)
    (today : String) (console : List String) (fs : FS) : AddOutcome :=
  let s0 : String := (dateStr.getD "")
  let afterDate : String × List String × Nat :=
    if s0 = "" then
      let p := popConsole console
      (if pyStrip p.1 = "" then today else pyStrip p.1, p.2, 1)
    else (pyStrip s0, console, 0)
  match parseDate afterDate.1 with
  | none => ⟨none, afterDate.2.2, afterDate.2.1, fs⟩
  | some d =>
    let c0 : String := (category.getD "")
    let afterCat : String × List String × Nat :=
      if c0 = "" then
        let p := popConsole afterDate.2.1
        (pyStrip p.1, p.2, afterDate.2.2 + 1)
      else (c0, afterDate.2.1, afterDate.2.2)
    let cat := if afterCat.1 = "" then "Misc" else afterCat.1
    let afterAmt : String × List String × Nat :=
      match amount with
      | none =>
        let p := popConsole afterCat.2.1
        (pyStrip p.1, p.2, afterCat.2.2 + 1)
      | some a => (a, afterCat.2.1, afterCat.2.2)
    match parseDecimal afterAmt.1 with
    | none => ⟨none, afterAmt.2.2, afterAmt.2.1, fs⟩
    | some amt =>
      if amt < 0 then ⟨none, afterAmt.2.2, afterAmt.2.1, fs⟩
      else
        let afterDesc : String × List String × Nat :=
          match description with
          | none =>
            let p := popConsole afterAmt.2.1
            (pyStrip p.1, p.2, afterAmt.2.2 + 1)
          | some s => (s, afterAmt.2.1, afterAmt.2.2)
        -- `description or ""` is the identity on strings
        let entry : Entry := ⟨dateIso d, cat, round2 amt, afterDesc.1⟩
        match loadExpenses fs with
        | .error _ => ⟨none, afterDesc.2.2, afterDesc.2.1, fs⟩
        | .ok (fs1, xs) =>
          match saveExpenses fs1 (xs ++ [entry.toJson]) with
          | .error _ => ⟨none, afterDesc.2.2, afterDesc.2.1, fs1⟩
          | .ok fs2 => ⟨some entry, afterDesc.2.2, afterDesc.2.1, fs2⟩

/-! ## Display sort (`view_expenses`, lines 152–197) -/

/-- `parse_safe` (lines 164–168): parse the record's `"date"` via
`strptime`; a missing field (`KeyError`), a non-string (`TypeError`) or an
unparsable string all fall to the handler and yield `date.min`. -/
def parseSafe (e : Json) : Date :=
  match getField e "date" with
  | some (.str s) => (parseDate s).getD dateMin
  | _ => dateMin

/-- The record's date text fails `parse_safe`'s `strptime` (missing field,
non-string, or unparsable text). -/
def unparsableDate (e : Json) : Bool :=
  match getField e "date" with
  | some (.str s) => (parseDate s).isNone
  | _ => true

/-- Sort key order for display: `≤` on `parse_safe` dates. -/
def entryLe (a b : Json) : Prop :=
  Date.leb (parseSafe a) (parseSafe b) = true

instance : DecidableRel entryLe :=
  fun _ _ => inferInstanceAs (Decidable (_ = true))

/-- `sorted(expenses, key=parse_safe)` (line 170).  CPython's sort is
stable, and a stable ascending sort is uniquely determined by the key
order, so insertion sort computes the same sequence. -/
def sortForDisplay (es : List Json) : List Json :=
  List.insertionSort entryLe es

/-- The amount a record contributes to the displayed total
(lines 186–192): `float(e.get("amount", 0.0))` with any failure read
as `0.0`. -/
def viewAmount (e : Json) : ℚ :=
  (pyFloat (pyGet e "amount" (.num 0))).getD 0

/-- The grand total `view_expenses` prints (lines 182–196): a running sum
over the sorted records. -/
def viewTotal (es : List Json) : ℚ :=
  (sortForDisplay es).foldl (fun t e => t + viewAmount e) 0

/-! ## Aggregation engine (`generate_monthly_summary`, lines 200–297) -/

/-- The record's date as the summary loop reads it (lines 241–245):
`e.get("date", "")` then `strptime`; a non-string or unparsable text means
the record is skipped. -/
def entryDate (e : Json) : Option Date :=
  match pyGet e "date" (.str "") with
  | .str s => parseDate s
  | _ => none

/-- `e.get("category", "Misc")` (line 247), the summary key.  Every record
this program writes has a string category; a non-string category (which
the display sort would crash on) is outside the model and read as the
default. -/
def entryCategory (e : Json) : String :=
  match pyGet e "category" (.str "Misc") with
  | .str s => s
  | _ => "Misc"

/-- `float(e.get("amount", 0.0))` with failures read as `0.0`
(lines 248–251). -/
def amountOrZero (e : Json) : ℚ :=
  (pyFloat (pyGet e "amount" (.num 0))).getD 0

/-- The record's parsed date falls in the requested month and year
(line 246). -/
def dateMatches (month year : ℤ) (e : Json) : Bool :=
  match entryDate e with
  | some d => decide ((d.year : ℤ) = year) && decide ((d.month : ℤ) = month)
  | none => false

/-- A monthly summary: the category→amount mapping as an insertion-ordered
association list with unique keys (a Python dict), plus the grand total. -/
structure Summary where
  cats : List (String × ℚ)
  total : ℚ
deriving DecidableEq

/-- `summary[category] = summary.get(category, 0.0) + amt` on the
insertion-ordered association list: update in place, or append a new key
at the end. -/
def addToCat : List (String × ℚ) → String → ℚ → List (String × ℚ)
  | [], k, v => [(k, v)]
  | (k', v') :: rest, k, v =>
    if k' = k then (k', v' + v) :: rest else (k', v') :: addToCat rest k v

/-- Lookup in the category mapping. -/
def lookupCat : List (String × ℚ) → String → Option ℚ
  | [], _ => none
  | (k', v) :: rest, k => if k' = k then some v else lookupCat rest k

/-- One iteration of the aggregation loop (lines 240–253). -/
def summaryStep (month year : ℤ) (acc : Summary) (e : Json) : Summary :=
  if dateMatches month year e then
    { cats := addToCat acc.cats (entryCategory e) (amountOrZero e),
      total := acc.total + amountOrZero e }
  else acc

/-- The aggregation loop: fold the records in storage order. -/
def summarizeEntries (month year : ℤ) (es : List Json) : Summary :=
  es.foldl (summaryStep month year) ⟨[], 0⟩

/-- The categories of the records matching the month, in scan order. -/
def matchingCats (month year : ℤ) (es : List Json) : List String :=
  (es.filter (dateMatches month year)).map entryCategory

/-- Keep the first occurrence of every element, preserving order. -/
def dedupFirst : List String → List String
  | [] => []
  | x :: xs => x :: (dedupFirst xs).filter (fun y => y ≠ x)

/-! ## Report exporter (lines 255–297) -/

/-- `calendar.month_name[m]` for a validated month. -/
def monthName (m : ℤ) : String :=
  if m = 1 then "January" else if m = 2 then "February"
  else if m = 3 then "March" else if m = 4 then "April"
  else if m = 5 then "May" else if m = 6 then "June"
  else if m = 7 then "July" else if m = 8 then "August"
  else if m = 9 then "September" else if m = 10 then "October"
  else if m = 11 then "November" else if m = 12 then "December" else ""

/-- Display/export order on the category mapping: `sorted(summary.items(),
key=lambda x: x[0].lower())` (line 262) — lexicographic by lowercased
category, stable, case-preserving keys. -/
def catLe (p q : String × ℚ) : Prop :=
  lexLe (keyLower p.1) (keyLower q.1) = true

instance : DecidableRel catLe :=
  fun _ _ => inferInstanceAs (Decidable (_ = true))

/-- The sorted category sequence used for the console display. -/
def displaySorted (cats : List (String × ℚ)) : List (String × ℚ) :=
  List.insertionSort catLe cats

/-- The JSON document `generate_monthly_summary` exports
(lines 269–276). -/
def jsonExport (month year : ℤ) (s : Summary) (nowIso : String) : Json :=
  .obj [("month", .num (month : ℚ)),
        ("month_name", .str (monthName month)),
        ("year", .num (year : ℚ)),
        ("categories", .obj (s.cats.map fun p => (p.1, .num (round2 p.2)))),
        ("total", .num (round2 s.total)),
        ("generated_at", .str nowIso)]

/-- One CSV data row: `writer.writerow([k, round(v, 2)])`. -/
def csvRow (p : String × ℚ) : List Json :=
  [.str p.1, .num (round2 p.2)]

/-- The rows the CSV export writes (lines 288–294): header, one row per
category in the mapping's own iteration order (`summary.items()`), a blank
row, and the total row. -/
def csvContent (s : Summary) : List (List Json) :=
  [.str "Category", .str "Amount"]
    :: s.cats.map csvRow
    ++ [[], [.str "Total", .num (round2 s.total)]]

/-- The CSV layout the specification describes for claim C1: the same
table but with the category rows in the display order of §4.3
(lexicographic by lowercase category name).  This definition follows the
spec's words, to be compared against `csvContent`. -/
def csvContentSpec (s : Summary) : List (List Json) :=
  [.str "Category", .str "Amount"]
    :: (displaySorted s.cats).map csvRow
    ++ [[], [.str "Total", .num (round2 s.total)]]

/-- Observable outcome of `generate_monthly_summary`:
`invalidMonth` — the month/year validation failed (printed, returned);
`storageError` — `load_expenses` raised (printed, returned);
`ok` — the summary was computed; each export slot carries the file
written (name and content), and a flag saying the export was attempted
but its write failed (reported, not fatal). -/
inductive GenResult where
  | invalidMonth
  | storageError
  | ok (summary : Summary)
       (jsonOut : Option (String × Json)) (jsonFailed : Bool)
       (csvOut : Option (String × List (List Json))) (csvFailed : Bool)

/-- `generate_monthly_summary(month, year, export_json, export_csv)`
(lines 200–297) with month and year supplied by the caller (the
interactive prompt for a missing month/year is CLI glue outside the
model).  Validation rejects months outside 1–12; exports only happen for
a non-empty summary (`if export_json and summary`). -/
def generateMonthlySummary (month year : ℤ) (exportJson exportCsv : Bool)
    (fs : FS) : GenResult :=
  if month < 1 ∨ 12 < month then .invalidMonth
  else
    match loadExpenses fs with
    | .error _ => .storageError
    | .ok (fs', es) =>
      let s := summarizeEntries month year es
      let base := "summary_" ++ monthName month ++ "_" ++ toString year
      let jsonSlot : Option (String × Json) × Bool :=
        if exportJson && !s.cats.isEmpty then
          if fs'.writeOk then
            (some (base ++ ".json", jsonExport month year s fs'.nowIso), false)
          else (none, true)
        else (none, false)
      let csvSlot : Option (String × List (List Json)) × Bool :=
        if exportCsv && !s.cats.isEmpty then
          if fs'.writeOk then (some (base ++ ".csv", csvContent s), false)
          else (none, true)
        else (none, false)
      .ok s jsonSlot.1 jsonSlot.2 csvSlot.1 csvSlot.2

/-! ## Sample data used by concrete theorems -/

/-- `{2025-01-05, Food, 100}` as `add_expense` stores it. -/
def entFoodJan5 : Json :=
  .obj [("date", .str "2025-01-05"), ("category", .str "Food"),
        ("amount", .num 100), ("description", .str "")]

/-- `{2025-01-20, Food, 50}`. -/
def entFoodJan20 : Json :=
  .obj [("date", .str "2025-01-20"), ("category", .str "Food"),
        ("amount", .num 50), ("description", .str "")]

/-- `{2025-02-01, Travel, 30}`. -/
def entTravelFeb1 : Json :=
  .obj [("date", .str "2025-02-01"), ("category", .str "Travel"),
        ("amount", .num 30), ("description", .str "")]

/-- A filesystem state with the given `expenses.json` content, no backups,
a fixed clock, and the given rename/write outcomes. -/
def mkFS (file : Option FileData) (renameOk writeOk : Bool) : FS :=
  ⟨file, [], "20251012_120000", "2025-10-12T12:00:00", renameOk, writeOk⟩

/-- A January 2025 record whose amount field holds unparsable text. -/
def entBadAmountJan : Json :=
  .obj [("date", .str "2025-01-10"), ("category", .str "Food"),
        ("amount", .str "abc"), ("description", .str "")]

/-- A January 2025 record with no amount field at all. -/
def entNoAmountJan : Json :=
  .obj [("date", .str "2025-01-11"), ("category", .str "Food"),
        ("description", .str "")]

/-- `{2025-01-05, Travel, 30}` — for order-of-iteration tests. -/
def entTravelJan5 : Json :=
  .obj [("date", .str "2025-01-05"), ("category", .str "Travel"),
        ("amount", .num 30), ("description", .str "")]

/-- `{2025-01-06, Bills, 5}` — a category that sorts before `Travel`. -/
def entBillsJan6 : Json :=
  .obj [("date", .str "2025-01-06"), ("category", .str "Bills"),
        ("amount", .num 5), ("description", .str "")]

/-- A record with unparsable date text (`"bad-date"`). -/
def entBadDate : Json :=
  .obj [("date", .str "bad-date"), ("category", .str "Misc"),
        ("amount", .num 1), ("description", .str "")]

/-- A record dated `0001-01-01` — a valid date equal to `date.min`. -/
def entMinDate : Json :=
  .obj [("date", .str "0001-01-01"), ("category", .str "Misc"),
        ("amount", .num 2), ("description", .str "")]

/-! ## General lemmas about the embedding -/

theorem summarizeEntries_nil (month year : ℤ) :
    summarizeEntries month year [] = ⟨[], 0⟩ := rfl

theorem summarizeEntries_append (month year : ℤ) (es : List Json) (e : Json) :
    summarizeEntries month year (es ++ [e])
      = summaryStep month year (summarizeEntries month year es) e := by
  simp [summarizeEntries, List.foldl_append]

theorem summarizeEntries_no_match (month year : ℤ) (es : List Json)
    (h : ∀ e ∈ es, dateMatches month year e = false) :
    summarizeEntries month year es = ⟨[], 0⟩ := by
  induction es with
  | nil => rfl
  | cons e es ih =>
    have he : dateMatches month year e = false := h e (List.mem_cons_self e es)
    have hrest : ∀ e' ∈ es, dateMatches month year e' = false :=
      fun e' he' => h e' (List.mem_cons_of_mem e he')
    have step : summaryStep month year ⟨[], 0⟩ e = ⟨[], 0⟩ := by
      simp [summaryStep, he]
    calc summarizeEntries month year (e :: es)
        = es.foldl (summaryStep month year) (summaryStep month year ⟨[], 0⟩ e) := rfl
      _ = es.foldl (summaryStep month year) ⟨[], 0⟩ := by rw [step]
      _ = ⟨[], 0⟩ := ih hrest

theorem lookupCat_addToCat_self (cats : List (String × ℚ)) (k : String) (v : ℚ) :
    lookupCat (addToCat cats k v) k = some ((lookupCat cats k).getD 0 + v) := by
  induction cats with
  | nil => simp [addToCat, lookupCat]
  | cons p rest ih =>
    by_cases h : p.1 = k
    · simp [addToCat, lookupCat, h]
    · simp [addToCat, lookupCat, h, ih]

theorem mem_map_fst_addToCat (cats : List (String × ℚ)) (k : String) (v : ℚ) :
    k ∈ (addToCat cats k v).map Prod.fst := by
  induction cats with
  | nil => simp [addToCat]
  | cons p rest ih =>
    by_cases h : p.1 = k
    · simp [addToCat, h]
    · simp only [addToCat, if_neg h, List.map_cons, List.mem_cons]
      exact Or.inr ih

theorem map_fst_addToCat (cats : List (String × ℚ)) (k : String) (v : ℚ) :
    (addToCat cats k v).map Prod.fst
      = if k ∈ cats.map Prod.fst then cats.map Prod.fst
        else cats.map Prod.fst ++ [k] := by
  induction cats with
  | nil => simp [addToCat]
  | cons p rest ih =>
    by_cases h : p.1 = k
    · simp [addToCat, h]
    · have hne : k ≠ p.1 := fun hk => h hk.symm
      by_cases hm : k ∈ rest.map Prod.fst
      · simp [addToCat, h, ih, hm, hne]
      · simp [addToCat, h, ih, hm, hne]

theorem mem_dedupFirst (l : List String) (x : String) :
    x ∈ dedupFirst l ↔ x ∈ l := by
  induction l with
  | nil => simp [dedupFirst]
  | cons a l ih =>
    by_cases h : x = a
    · simp [dedupFirst, h]
    · simp [dedupFirst, h, ih]

theorem dedupFirst_append_singleton (l : List String) (c : String) :
    dedupFirst (l ++ [c])
      = if c ∈ l then dedupFirst l else dedupFirst l ++ [c] := by
  induction l with
  | nil => simp [dedupFirst]
  | cons a l ih =>
    by_cases hc : c ∈ l
    · simp [dedupFirst, ih, hc]
    · by_cases hca : c = a
      · subst hca
        simp [dedupFirst, ih, hc, List.filter_append]
      · simp [dedupFirst, ih, hc, hca, List.filter_append]

theorem keys_summarizeEntries (month year : ℤ) (es : List Json) :
    (summarizeEntries month year es).cats.map Prod.fst
      = dedupFirst (matchingCats month year es) := by
  induction es using List.reverseRecOn with
  | nil => simp [summarizeEntries, matchingCats, dedupFirst]
  | append_singleton es e ih =>
    rw [summarizeEntries_append]
    by_cases h : dateMatches month year e = true
    · have hmc : matchingCats month year (es ++ [e])
          = matchingCats month year es ++ [entryCategory e] := by
        simp [matchingCats, List.filter_append, h]
      rw [hmc, dedupFirst_append_singleton, summaryStep, if_pos h]
      simp only [map_fst_addToCat, ih, mem_dedupFirst]
    · have h' : dateMatches month year e = false := by
        simpa using h
      have hmc : matchingCats month year (es ++ [e])
          = matchingCats month year es := by
        simp [matchingCats, List.filter_append, h']
      rw [hmc, summaryStep, if_neg h, ih]

theorem foldl_add_eq_sum (f : Json → ℚ) (l : List Json) (z : ℚ) :
    l.foldl (fun t e => t + f e) z = z + (l.map f).sum := by
  induction l generalizing z with
  | nil => simp
  | cons e l ih => simp [ih, add_assoc]

theorem viewTotal_eq_sum (es : List Json) :
    viewTotal es = (es.map viewAmount).sum := by
  have hperm : List.Perm (sortForDisplay es) es :=
    List.perm_insertionSort entryLe es
  rw [viewTotal, foldl_add_eq_sum, zero_add]
  exact (hperm.map viewAmount).sum_eq

theorem Date.leb_total (a b : Date) : a.leb b = true ∨ b.leb a = true := by
  simp only [Date.leb, decide_eq_true_eq]
  omega

theorem Date.leb_trans (a b c : Date)
    (hab : a.leb b = true) (hbc : b.leb c = true) : a.leb c = true := by
  simp only [Date.leb, decide_eq_true_eq] at *
  omega

instance : IsTotal Json entryLe :=
  ⟨fun a b => Date.leb_total (parseSafe a) (parseSafe b)⟩

instance : IsTrans Json entryLe :=
  ⟨fun a b c => Date.leb_trans (parseSafe a) (parseSafe b) (parseSafe c)⟩

theorem parseDate_pos (s : String) (d : Date) (h : parseDate s = some d) :
    1 ≤ d.year ∧ 1 ≤ d.month ∧ 1 ≤ d.day := by
  unfold parseDate at h
  split at h
  · split at h
    · split at h
      · rename_i hbound
        cases h
        exact ⟨hbound.1, hbound.2.1, hbound.2.2.2.1⟩
      · cases h
    · cases h
  · cases h

theorem parseSafe_pos (e : Json) :
    1 ≤ (parseSafe e).year ∧ 1 ≤ (parseSafe e).month ∧ 1 ≤ (parseSafe e).day := by
  unfold parseSafe
  split
  · rename_i s _
    cases hp : parseDate s with
    | none => simp [hp, dateMin]
    | some d => simpa [hp] using parseDate_pos s d hp
  · simp [dateMin]

theorem leb_dateMin_eq (d : Date)
    (hpos : 1 ≤ d.year ∧ 1 ≤ d.month ∧ 1 ≤ d.day)
    (h : d.leb dateMin = true) : d = dateMin := by
  obtain ⟨y, m, dd⟩ := d
  simp only [Date.leb, dateMin, decide_eq_true_eq] at h hpos ⊢
  simp only [Date.mk.injEq]
  omega

theorem parseSafe_of_unparsable (e : Json) (h : unparsableDate e = true) :
    parseSafe e = dateMin := by
  unfold parseSafe
  unfold unparsableDate at h
  split
  · rename_i s heq
    rw [heq] at h
    simp only at h
    cases hp : parseDate s with
    | none => simp [hp]
    | some d => rw [hp] at h; simp at h
  · rfl

/-! ## Claim C5 -/

/-- C5: for the collection `[{2025-01-05, Food, 100}, {2025-01-20, Food, 50},
{2025-02-01, Travel, 30}]`, summarizing January 2025 returns the mapping
`{Food: 150}` with grand total `150`, and summarizing February 2025 returns
`{Travel: 30}` with grand total `30`. -/
theorem c5_concrete_summary :
    summarizeEntries 1 2025 [entFoodJan5, entFoodJan20, entTravelFeb1]
        = ⟨[("Food", 150)], 150⟩
    ∧ summarizeEntries 2 2025 [entFoodJan5, entFoodJan20, entTravelFeb1]
        = ⟨[("Travel", 30)], 30⟩ := by
  constructor
  · have h : summarizeEntries 1 2025 [entFoodJan5, entFoodJan20, entTravelFeb1]
        = ⟨[("Food", (100 : ℚ) + 50)], (0 : ℚ) + 100 + 50⟩ := rfl
    rw [h]
    norm_num
  · have h : summarizeEntries 2 2025 [entFoodJan5, entFoodJan20, entTravelFeb1]
        = ⟨[("Travel", (30 : ℚ))], (0 : ℚ) + 30⟩ := rfl
    rw [h]
    norm_num

/-! ## Claim C8 -/

/-- C8: for every month outside 1–12 (any year, any filesystem state, any
export flags), `generate_monthly_summary` stops with the invalid-month
report and produces no summary. -/
theorem c8_invalid_month (month year : ℤ) (exportJson exportCsv : Bool)
    (fs : FS) (h : month < 1 ∨ 12 < month) :
    generateMonthlySummary month year exportJson exportCsv fs
      = .invalidMonth := by
  unfold generateMonthlySummary
  rw [if_pos h]

/-- Witness for C8 at month 13. -/
theorem c8_invalid_month_witness :
    generateMonthlySummary 13 2025 true false (mkFS none true true)
      = .invalidMonth :=
  c8_invalid_month 13 2025 true false (mkFS none true true) (by decide)

/-! ## Claim C9 -/

/-- C9: for every collection and valid month/year with no matching entries,
the summary is empty (no categories, zero total) and is an ordinary result
(not an error), and neither export slot writes a file or reports a
failure. -/
theorem c9_empty_summary (month year : ℤ) (exportJson exportCsv : Bool)
    (fs fs' : FS) (es : List Json)
    (hm : ¬(month < 1 ∨ 12 < month))
    (hload : loadExpenses fs = .ok (fs', es))
    (hnone : ∀ e ∈ es, dateMatches month year e = false) :
    generateMonthlySummary month year exportJson exportCsv fs
      = .ok ⟨[], 0⟩ none false none false := by
  unfold generateMonthlySummary
  rw [if_neg hm, hload]
  simp [summarizeEntries_no_match month year es hnone]

/-- Witness for C9: March 2025 over a one-entry January collection. -/
theorem c9_empty_summary_witness :
    generateMonthlySummary 3 2025 true true
        (mkFS (some (.json (.arr [entFoodJan5]))) true true)
      = .ok ⟨[], 0⟩ none false none false :=
  c9_empty_summary 3 2025 true true
    (mkFS (some (.json (.arr [entFoodJan5]))) true true)
    (mkFS (some (.json (.arr [entFoodJan5]))) true true)
    [entFoodJan5]
    (by decide) rfl (by decide)

/-! ## Claim C3 -/

/-- C3 counterexample: the claim "ensureInitialized never raises to its
caller, for every initial state" is false — when the durable document is
missing and the file write fails, `ensure_expenses_file`'s unprotected
`open(..., "w")`/`json.dump` (line 53) raises to the caller. -/
theorem c3_ensure_raises_counterexample :
    ¬ ∀ fs : FS, ∃ fs', ensureExpensesFile fs = .ok fs' := by
  intro h
  obtain ⟨fs', hfs'⟩ := h (mkFS none true false)
  simp [ensureExpensesFile, mkFS] at hfs'

/-- C3 (amended): whenever file writes succeed, `ensure_expenses_file`
never raises, for every initial state of the durable document (missing,
corrupted or valid) and regardless of whether the backup rename succeeds —
a rename failure alone is reported, not propagated.  A failing write,
however, does propagate (see the counterexample). -/
theorem c3_ensure_no_raise_when_writes_succeed (fs : FS)
    (hw : fs.writeOk = true) :
    ∃ fs', ensureExpensesFile fs = .ok fs' := by
  unfold ensureExpensesFile
  rcases hfile : fs.expensesFile with _ | fd
  · exact ⟨{ fs with expensesFile := some (.json (.arr [])) }, by simp [hw]⟩
  · by_cases hv : fd.isValidList
    · exact ⟨fs, by simp [hv]⟩
    · by_cases hr : fs.renameOk
      · exact ⟨{ fs with
            expensesFile := some (.json (.arr [])),
            backups := ("expenses_corrupted_backup_" ++ fs.now ++ ".json", fd)
              :: fs.backups }, by simp [hv, hr, hw]⟩
      · exact ⟨{ fs with expensesFile := some (.json (.arr [])) },
          by simp [hv, hr, hw]⟩

/-- Witness for the amended C3: a corrupted document whose backup rename
fails is still recovered without raising (the failure is only reported). -/
theorem c3_ensure_no_raise_witness :
    ∃ fs', ensureExpensesFile (mkFS (some .malformed) false true)
      = .ok fs' :=
  c3_ensure_no_raise_when_writes_succeed (mkFS (some .malformed) false true) rfl

/-! ## Claim C4 -/

/-- C4: when the durable document holds malformed JSON or a non-sequence
value, initialization renames it to
`expenses_corrupted_backup_<timestamp>.json` (timestamp of detection),
creates a fresh empty document, and a subsequent load returns the empty
collection. -/
theorem c4_backup_and_recreate (fs : FS) (fd : FileData)
    (hfile : fs.expensesFile = some fd)
    (hbad : fd.isValidList = false)
    (hr : fs.renameOk = true) (hw : fs.writeOk = true) :
    ensureExpensesFile fs = .ok
      { fs with
          expensesFile := some (.json (.arr [])),
          backups := ("expenses_corrupted_backup_" ++ fs.now ++ ".json", fd)
            :: fs.backups }
    ∧ loadExpenses
        { fs with
            expensesFile := some (.json (.arr [])),
            backups := ("expenses_corrupted_backup_" ++ fs.now ++ ".json", fd)
              :: fs.backups }
      = .ok
        ({ fs with
            expensesFile := some (.json (.arr [])),
            backups := ("expenses_corrupted_backup_" ++ fs.now ++ ".json", fd)
              :: fs.backups }, []) := by
  constructor
  · unfold ensureExpensesFile
    rw [hfile]
    simp [hbad, hr, hw]
  · simp [loadExpenses, ensureExpensesFile, FileData.isValidList]

/-- Witness for C4: a malformed document on an otherwise healthy
filesystem. -/
theorem c4_backup_and_recreate_witness :
    ensureExpensesFile (mkFS (some .malformed) true true) = .ok
      { mkFS (some .malformed) true true with
          expensesFile := some (.json (.arr [])),
          backups :=
            [("expenses_corrupted_backup_20251012_120000.json", .malformed)] }
    ∧ loadExpenses
        { mkFS (some .malformed) true true with
            expensesFile := some (.json (.arr [])),
            backups :=
              [("expenses_corrupted_backup_20251012_120000.json", .malformed)] }
      = .ok
        ({ mkFS (some .malformed) true true with
            expensesFile := some (.json (.arr [])),
            backups :=
              [("expenses_corrupted_backup_20251012_120000.json",
                .malformed)] }, []) :=
  c4_backup_and_recreate (mkFS (some .malformed) true true) .malformed
    rfl rfl rfl rfl

/-! ## Claim C10 -/

/-- C10: a stored record whose date falls in the requested month/year but
whose amount field is missing (the first disjunct: `e.get("amount", 0.0)`
reads the `0.0` default) or not parsable as a number (the second disjunct:
`float(...)` fails and the handler substitutes `0.0`) contributes 0.0: its
category still appears as a key of the summary, the category total and the
grand total are what they were without it, and no error occurs; the
display path's grand total applies the same 0.0 fallback. -/
theorem c10_amount_fallback (month year : ℤ) (es : List Json) (e : Json)
    (hmatch : dateMatches month year e = true)
    (hbad : getField e "amount" = none
      ∨ pyFloat (pyGet e "amount" (.num 0)) = none) :
    (summarizeEntries month year (es ++ [e])).total
        = (summarizeEntries month year es).total
    ∧ entryCategory e
        ∈ (summarizeEntries month year (es ++ [e])).cats.map Prod.fst
    ∧ lookupCat (summarizeEntries month year (es ++ [e])).cats
          (entryCategory e)
        = some ((lookupCat (summarizeEntries month year es).cats
            (entryCategory e)).getD 0)
    ∧ viewTotal (es ++ [e]) = viewTotal es := by
  have hz : amountOrZero e = 0 := by
    rcases hbad with h | h
    · simp [amountOrZero, pyGet, h, pyFloat]
    · simp [amountOrZero, h]
  have hstep := summarizeEntries_append month year es e
  refine ⟨?_, ?_, ?_, ?_⟩
  · rw [hstep, summaryStep, if_pos hmatch]
    simp [hz]
  · rw [hstep, summaryStep, if_pos hmatch]
    exact mem_map_fst_addToCat _ _ _
  · rw [hstep, summaryStep, if_pos hmatch]
    simp [hz, lookupCat_addToCat_self]
  · have hva : viewAmount e = 0 := by
      rcases hbad with h | h
      · simp [viewAmount, pyGet, h, pyFloat]
      · simp [viewAmount, h]
    rw [viewTotal_eq_sum, viewTotal_eq_sum]
    simp [hva]

/-- Witness for C10, exercising both halves of the hypothesis: a January
record with no amount field at all, and one with unparsable amount text
`"abc"`, each appended to the one-record Food collection. -/
theorem c10_amount_fallback_witness :
    ((summarizeEntries 1 2025 ([entFoodJan5] ++ [entNoAmountJan])).total
        = (summarizeEntries 1 2025 [entFoodJan5]).total
      ∧ entryCategory entNoAmountJan
          ∈ (summarizeEntries 1 2025
              ([entFoodJan5] ++ [entNoAmountJan])).cats.map Prod.fst
      ∧ lookupCat (summarizeEntries 1 2025
            ([entFoodJan5] ++ [entNoAmountJan])).cats
            (entryCategory entNoAmountJan)
          = some ((lookupCat (summarizeEntries 1 2025 [entFoodJan5]).cats
              (entryCategory entNoAmountJan)).getD 0)
      ∧ viewTotal ([entFoodJan5] ++ [entNoAmountJan])
          = viewTotal [entFoodJan5])
    ∧ ((summarizeEntries 1 2025 ([entFoodJan5] ++ [entBadAmountJan])).total
        = (summarizeEntries 1 2025 [entFoodJan5]).total
      ∧ entryCategory entBadAmountJan
          ∈ (summarizeEntries 1 2025
              ([entFoodJan5] ++ [entBadAmountJan])).cats.map Prod.fst
      ∧ lookupCat (summarizeEntries 1 2025
            ([entFoodJan5] ++ [entBadAmountJan])).cats
            (entryCategory entBadAmountJan)
          = some ((lookupCat (summarizeEntries 1 2025 [entFoodJan5]).cats
              (entryCategory entBadAmountJan)).getD 0)
      ∧ viewTotal ([entFoodJan5] ++ [entBadAmountJan])
          = viewTotal [entFoodJan5]) :=
  ⟨c10_amount_fallback 1 2025 [entFoodJan5] entNoAmountJan
      (by decide) (Or.inl rfl),
   c10_amount_fallback 1 2025 [entFoodJan5] entBadAmountJan
      (by decide) (Or.inr (by decide))⟩

/-! ## Claim C2 -/

/-- C2: for all valid `(date, category, amount, description)` inputs,
validating through `add_expense` (which normalizes the date, keeps the
category, rounds the amount to 2 decimal places and keeps the description)
and round-tripping the resulting singleton collection through storage
yields exactly the validated entry: the append touches no prompt, and a
subsequent load returns precisely that one stored record. -/
theorem c2_validate_save_load_round_trip
    (ds cat as' desc today : String) (console : List String)
    (d : Date) (a : ℚ) (fs : FS)
    (hds : ds ≠ "") (hd : parseDate (pyStrip ds) = some d)
    (hcat : cat ≠ "")
    (ha : parseDecimal as' = some a) (ha0 : ¬ a < 0)
    (hfile : fs.expensesFile = some (.json (.arr [])))
    (hw : fs.writeOk = true) :
    (addExpense (some ds) (some cat) (some as') (some desc)
        today console fs).result
      = some ⟨dateIso d, cat, round2 a, desc⟩
    ∧ (addExpense (some ds) (some cat) (some as') (some desc)
        today console fs).promptCount = 0
    ∧ loadExpenses (addExpense (some ds) (some cat) (some as') (some desc)
        today console fs).fs
      = .ok ((addExpense (some ds) (some cat) (some as') (some desc)
          today console fs).fs,
          [Entry.toJson ⟨dateIso d, cat, round2 a, desc⟩]) := by
  have hload : loadExpenses fs = .ok (fs, []) := by
    simp [loadExpenses, ensureExpensesFile, hfile, FileData.isValidList]
  have hrun : addExpense (some ds) (some cat) (some as') (some desc)
      today console fs
      = ⟨some ⟨dateIso d, cat, round2 a, desc⟩, 0, console,
         { fs with expensesFile := some (.json (.arr
             [Entry.toJson ⟨dateIso d, cat, round2 a, desc⟩])) }⟩ := by
    simp [addExpense, hds, hd, hcat, ha, ha0, hload, saveExpenses, hw]
  rw [hrun]
  refine ⟨rfl, rfl, ?_⟩
  simp [loadExpenses, ensureExpensesFile, FileData.isValidList]

/-- Witness for C2 at `("2025-01-05", "Food", "100", "Lunch")` over an
empty store. -/
theorem c2_round_trip_witness :
    (addExpense (some "2025-01-05") (some "Food") (some "100") (some "Lunch")
        "2025-10-12" [] (mkFS (some (.json (.arr []))) true true)).result
      = some ⟨dateIso ⟨2025, 1, 5⟩, "Food", round2 100, "Lunch"⟩
    ∧ (addExpense (some "2025-01-05") (some "Food") (some "100") (some "Lunch")
        "2025-10-12" [] (mkFS (some (.json (.arr []))) true true)).promptCount
      = 0
    ∧ loadExpenses (addExpense (some "2025-01-05") (some "Food") (some "100")
        (some "Lunch") "2025-10-12" []
        (mkFS (some (.json (.arr []))) true true)).fs
      = .ok ((addExpense (some "2025-01-05") (some "Food") (some "100")
          (some "Lunch") "2025-10-12" []
          (mkFS (some (.json (.arr []))) true true)).fs,
          [Entry.toJson ⟨dateIso ⟨2025, 1, 5⟩, "Food", round2 100, "Lunch"⟩]) :=
  c2_validate_save_load_round_trip "2025-01-05" "Food" "100" "Lunch"
    "2025-10-12" [] ⟨2025, 1, 5⟩ 100 (mkFS (some (.json (.arr []))) true true)
    (by decide) (by decide) (by decide) (by decide) (by norm_num)
    rfl rfl

/-! ## Claim C6 -/

/-- C6 counterexample: the claim "for an empty or absent category argument
(other fields valid), validation returns an Entry with category `Misc` and
performs no console interaction" is false on the code — with category
argument `""` and a console that answers `"Food"`, `add_expense` performs
one `input()` prompt (line 110) and the stored category is the console's
`"Food"`, not `"Misc"`. -/
theorem c6_category_counterexample :
    (addExpense (some "2025-01-05") (some "") (some "10") (some "x")
        "2025-10-12" ["Food"]
        (mkFS (some (.json (.arr []))) true true)).promptCount = 1
    ∧ ((addExpense (some "2025-01-05") (some "") (some "10") (some "x")
        "2025-10-12" ["Food"]
        (mkFS (some (.json (.arr []))) true true)).result.map
          Entry.category) = some "Food" := by
  constructor
  · rfl
  · rfl

/-- C6 (amended): when the category argument is empty or absent and the
other fields are valid and supplied, `add_expense` prompts the console for
a category — exactly one prompt — and the stored category is the trimmed
console response, falling back to `"Misc"` only when that response is
empty.  (The claim's "no console interaction" fails; the `"Misc"` default
applies to the prompted value, not the argument.) -/
theorem c6_category_prompt_then_default (cat? : Option String)
    (ds as' desc today c : String) (rest : List String)
    (d : Date) (a : ℚ) (fs : FS)
    (hcat : cat? = none ∨ cat? = some "")
    (hds : ds ≠ "") (hd : parseDate (pyStrip ds) = some d)
    (ha : parseDecimal as' = some a) (ha0 : ¬ a < 0)
    (hfile : fs.expensesFile = some (.json (.arr [])))
    (hw : fs.writeOk = true) :
    (addExpense (some ds) cat? (some as') (some desc)
        today (c :: rest) fs).promptCount = 1
    ∧ (addExpense (some ds) cat? (some as') (some desc)
        today (c :: rest) fs).result
      = some ⟨dateIso d,
          if pyStrip c = "" then "Misc" else pyStrip c,
          round2 a, desc⟩ := by
  have hload : loadExpenses fs = .ok (fs, []) := by
    simp [loadExpenses, ensureExpensesFile, hfile, FileData.isValidList]
  rcases hcat with rfl | rfl
  · constructor
    · simp [addExpense, hds, hd, ha, ha0, hload, saveExpenses, hw, popConsole]
    · simp [addExpense, hds, hd, ha, ha0, hload, saveExpenses, hw, popConsole]
  · constructor
    · simp [addExpense, hds, hd, ha, ha0, hload, saveExpenses, hw, popConsole]
    · simp [addExpense, hds, hd, ha, ha0, hload, saveExpenses, hw, popConsole]

/-- Witness for the amended C6: empty category argument, console answering
`"Groceries "` (trimmed to `"Groceries"`). -/
theorem c6_category_prompt_witness :
    (addExpense (some "2025-01-05") (some "") (some "10") (some "x")
        "2025-10-12" ["Groceries "]
        (mkFS (some (.json (.arr []))) true true)).promptCount = 1
    ∧ (addExpense (some "2025-01-05") (some "") (some "10") (some "x")
        "2025-10-12" ["Groceries "]
        (mkFS (some (.json (.arr []))) true true)).result
      = some ⟨dateIso ⟨2025, 1, 5⟩,
          if pyStrip "Groceries " = "" then "Misc" else pyStrip "Groceries ",
          round2 10, "x"⟩ :=
  c6_category_prompt_then_default (some "") "2025-01-05" "10" "x"
    "2025-10-12" "Groceries " [] ⟨2025, 1, 5⟩ 10
    (mkFS (some (.json (.arr []))) true true)
    (Or.inr rfl) (by decide) (by decide) (by decide) (by norm_num) rfl rfl

/-! ## Claim C7 -/

/-- C7 counterexample: the claim "every entry whose date text is unparsable
sorts before all entries with valid dates" is false on the code — an entry
with the valid date `0001-01-01` (which equals `date.min`, the key assigned
to unparsable dates) that precedes the unparsable entry keeps its place
under the stable sort, so the unparsable entry does not sort before it. -/
theorem c7_unparsable_not_always_first :
    ¬ ∀ (es : List Json) (i j : ℕ) (hi : i < (sortForDisplay es).length)
        (hj : j < (sortForDisplay es).length),
        unparsableDate ((sortForDisplay es).get ⟨i, hi⟩) = true →
        unparsableDate ((sortForDisplay es).get ⟨j, hj⟩) = false →
        i < j := by
  intro h
  have hlt := h [entMinDate, entBadDate] 1 0 (by decide) (by decide)
    (by decide) (by decide)
  omega

/-- C7 (amended): `sortForDisplay` orders every collection ascending by
parsed date, treating an unparsable date text as the minimum date
(`0001-01-01`) instead of raising; consequently every unparsable-date
entry sorts before all entries whose valid date is strictly later than
`0001-01-01`.  (An entry validly dated `0001-01-01` carries the same key,
and the stable sort then keeps original relative order — see the
counterexample.) -/
theorem c7_sorted_with_unparsable_as_min (es : List Json) :
    List.Pairwise entryLe (sortForDisplay es)
    ∧ ∀ (i j : ℕ) (hi : i < (sortForDisplay es).length)
        (hj : j < (sortForDisplay es).length),
        unparsableDate ((sortForDisplay es).get ⟨i, hi⟩) = true →
        unparsableDate ((sortForDisplay es).get ⟨j, hj⟩) = false →
        parseSafe ((sortForDisplay es).get ⟨j, hj⟩) ≠ dateMin →
        i < j := by
  have hsorted : List.Pairwise entryLe (sortForDisplay es) :=
    List.sorted_insertionSort entryLe es
  refine ⟨hsorted, ?_⟩
  intro i j hi hj hbi hgj hne
  by_contra hij
  have hji : j < i ∨ j = i := by omega
  rcases hji with hji | rfl
  · have hle : entryLe ((sortForDisplay es).get ⟨j, hj⟩)
        ((sortForDisplay es).get ⟨i, hi⟩) :=
      List.pairwise_iff_get.mp hsorted ⟨j, hj⟩ ⟨i, hi⟩ hji
    have hkey : parseSafe ((sortForDisplay es).get ⟨i, hi⟩) = dateMin :=
      parseSafe_of_unparsable _ hbi
    rw [entryLe, hkey] at hle
    exact hne (leb_dateMin_eq _ (parseSafe_pos _) hle)
  · rw [hbi] at hgj
    cases hgj

/-- Witness for the amended C7: in `[{2025-01-05, Food}, {bad-date}]` the
unparsable entry (index 0 after sorting) precedes the valid entry
(index 1). -/
theorem c7_sorted_witness : (0 : ℕ) < 1 :=
  (c7_sorted_with_unparsable_as_min [entFoodJan5, entBadDate]).2 0 1
    (by decide) (by decide) (by decide) (by decide) (by decide)

/-! ## Claim C1 -/

/-- C1 counterexample: the claim "the CSV export writes one row per
category in the lexicographic-by-lowercase display order of §4.3" is false
on the code — the CSV writer iterates `summary.items()` in dict insertion
order (line 291), not the sorted order used for the console display
(line 262).  With categories first seen in the order `Travel, Bills`, the
written CSV table differs from the spec's sorted layout
(`Bills` before `Travel`). -/
theorem c1_csv_order_counterexample :
    generateMonthlySummary 1 2025 false true
        (mkFS (some (.json (.arr [entTravelJan5, entBillsJan6]))) true true)
      = .ok (summarizeEntries 1 2025 [entTravelJan5, entBillsJan6]) none false
          (some ("summary_January_2025.csv",
            csvContent (summarizeEntries 1 2025 [entTravelJan5, entBillsJan6])))
          false
    ∧ csvContent (summarizeEntries 1 2025 [entTravelJan5, entBillsJan6])
      ≠ csvContentSpec (summarizeEntries 1 2025 [entTravelJan5, entBillsJan6]) := by
  constructor
  · rfl
  · have hcats : (summarizeEntries 1 2025 [entTravelJan5, entBillsJan6]).cats
        = [("Travel", (30 : ℚ)), ("Bills", (5 : ℚ))] := rfl
    have hsorted : displaySorted [("Travel", (30 : ℚ)), ("Bills", (5 : ℚ))]
        = [("Bills", (5 : ℚ)), ("Travel", (30 : ℚ))] := rfl
    intro hEq
    simp only [csvContent, csvContentSpec, hcats, hsorted] at hEq
    simp [csvRow] at hEq

/-- C1 (amended): for every non-empty summary, the CSV export writes the
two-column header, one row per category in the mapping's own insertion
order — the order of first occurrence of each category among the records
matching the month, not the sorted display order of §4.3 — then a blank
separator row and the Total row. -/
theorem c1_csv_rows_first_occurrence_order
    (month year : ℤ) (fs fs' : FS) (es : List Json)
    (hm : ¬(month < 1 ∨ 12 < month))
    (hload : loadExpenses fs = .ok (fs', es))
    (hw : fs'.writeOk = true)
    (hne : (summarizeEntries month year es).cats ≠ []) :
    generateMonthlySummary month year false true fs
      = .ok (summarizeEntries month year es) none false
          (some ("summary_" ++ monthName month ++ "_" ++ toString year
              ++ ".csv",
            csvContent (summarizeEntries month year es)))
          false
    ∧ (summarizeEntries month year es).cats.map Prod.fst
        = dedupFirst (matchingCats month year es) := by
  have hF : (summarizeEntries month year es).cats.isEmpty = false := by
    rcases hcase : (summarizeEntries month year es).cats with _ | ⟨p, rest⟩
    · exact absurd hcase hne
    · rfl
  constructor
  · unfold generateMonthlySummary
    rw [if_neg hm, hload]
    simp [hF, hw]
  · exact keys_summarizeEntries month year es

/-- Witness for the amended C1 on the `Travel`-then-`Bills` collection. -/
theorem c1_csv_rows_witness :
    generateMonthlySummary 1 2025 false true
        (mkFS (some (.json (.arr [entTravelJan5, entBillsJan6]))) true true)
      = .ok (summarizeEntries 1 2025 [entTravelJan5, entBillsJan6]) none false
          (some ("summary_" ++ monthName 1 ++ "_" ++ toString (2025 : ℤ)
              ++ ".csv",
            csvContent (summarizeEntries 1 2025 [entTravelJan5, entBillsJan6])))
          false
    ∧ (summarizeEntries 1 2025 [entTravelJan5, entBillsJan6]).cats.map Prod.fst
        = dedupFirst (matchingCats 1 2025 [entTravelJan5, entBillsJan6]) :=
  c1_csv_rows_first_occurrence_order 1 2025
    (mkFS (some (.json (.arr [entTravelJan5, entBillsJan6]))) true true)
    (mkFS (some (.json (.arr [entTravelJan5, entBillsJan6]))) true true)
    [entTravelJan5, entBillsJan6]
    (by decide) rfl rfl (by decide)
